import Mathlib

/-!
Verification development for the AutoKey scripting engine excerpt
(`lib/autokey/scripting/engine.py`, `lib/autokey/baseUIActions.py`,
`lib/autokey/UI_common_functions.py`) and the config-manager backup
logic exercised by `tests/test_configmanager.py`.

The Python code is shallowly embedded: Python objects become Lean
structures, mutation becomes explicit state passing on `EngineState`,
and exceptions become `Except`-style results.  The `model.Key` enum of
AutoKey inherits from `str` in Python (`class Key(str, enum.Enum)`), so
keys are modelled directly as `String` values; `isinstance(x, str)`
holds for `Key` instances, and sorting/comparison is plain string
comparison.
-/

namespace Autokey

/-- The phrase send modes listed in the engine docstring
(`model.SendMode`). -/
inductive SendMode
  | KEYBOARD
  | CB_CTRL_V
  | CB_CTRL_SHIFT_V
  | CB_SHIFT_INSERT
  | SELECTION
deriving DecidableEq, Repr

/-- Trigger modes attached to an item (`model.TriggerMode`): only the
two used by the engine functions are modelled. -/
inductive TriggerMode
  | ABBREVIATION
  | HOTKEY
deriving DecidableEq, Repr

/-- Errors raised by the engine: Python `ValueError` versus a plain
`Exception` (the deprecated functions raise the latter).  The message
is kept so distinct raise sites stay distinguishable. -/
inductive AKError
  | valueError (msg : String)
  | exn (msg : String)
deriving DecidableEq, Repr

/-! ## Dynamic argument shapes

`create_phrase` receives `abbreviations` and `hotkey` as dynamically
typed Python values; `validateAbbreviations` and `validateHotkey`
inspect their runtime shape.  The possible shapes are embedded as
inductive types.  `model.Key` instances are `str` instances in Python,
so a key is represented by the `str` constructors here. -/

/-- A Python value inside an `abbreviations` list: a string (which
includes `model.Key` instances) or anything else. -/
inductive PyV
  | str (s : String)
  | notStr
deriving DecidableEq, Repr

/-- Runtime shape of the `abbreviations` argument of
`Engine.create_phrase`: `None`, a single `str`, a `list`, or any other
object. -/
inductive AbbrArg
  | noneA
  | strA (s : String)
  | listA (xs : List PyV)
  | otherA
deriving DecidableEq, Repr

/-- A Python value appearing inside the `hotkey` tuple: a string
(including `model.Key` instances), a list of values, or anything else.
List elements are `PyV` values: the validator only ever asks whether an
element is a string, so one level of structure suffices. -/
inductive HKEl
  | strE (s : String)
  | listE (xs : List PyV)
  | otherE
deriving DecidableEq, Repr

/-- Runtime shape of the `hotkey` argument of `Engine.create_phrase`:
`None`, a tuple of arbitrary arity, or any other object. -/
inductive HotkeyArg
  | noneH
  | tupleH (es : List HKEl)
  | otherH
deriving DecidableEq, Repr

/-- `Engine.validateAbbreviations` (engine.py lines 248-261), as the
predicate "does not raise": `None` passes, a `str` passes, a `list`
passes iff every element is a `str`, everything else fails. -/
def validateAbbreviations : AbbrArg → Bool
  | .noneA => true
  | .strA _ => true
  | .listA xs => xs.all (fun x => match x with | .str _ => true | .notStr => false)
  | .otherA => false

/-- `Engine.isValidHotkeyType` (engine.py lines 264-266):
`isinstance(item, str) or isinstance(item, model.Key)`; since
`model.Key` is a `str` subclass, this is exactly "is a string".
This version applies to tuple elements. -/
def isValidHotkeyType : HKEl → Bool
  | .strE _ => true
  | _ => false

/-- `Engine.isValidHotkeyType` applied to an element of the modifier
list (the same Python function, at the inner-value representation). -/
def isValidHotkeyItem : PyV → Bool
  | .str _ => true
  | .notStr => false

/-- `Engine.validateHotkey` (engine.py lines 268-292), as the predicate
"does not raise".  Tracing the source: a non-`None` hotkey must be a
tuple of length 2; if its first element is a list, every list element
must satisfy `isValidHotkeyType`; a non-list first element sets
`fail=True` in both the `elif` and the `else` branch; the second
element must satisfy `isValidHotkeyType`. -/
def validateHotkey : HotkeyArg → Bool
  | .noneH => true
  | .tupleH es =>
    match es with
    | [e0, e1] =>
      (match e0 with
       | .listE items => items.all isValidHotkeyItem
       | _ => false) && isValidHotkeyType e1
    | _ => false
  | .otherH => false

/-! ## Spec-side shape predicates (for the refinement claims C2/C3)

These two definitions follow the words of the claims, to be compared
with the source-derived validators above. -/

/-- Spec-side shape for abbreviations, following the claim's words:
`None`, a `str`, or a list whose elements are all `str`. -/
def abbrShapeOk : AbbrArg → Prop
  | .noneA => True
  | .strA _ => True
  | .listA xs => ∀ x ∈ xs, ∃ s, x = PyV.str s
  | .otherA => False

instance (x : PyV) : Decidable (∃ s, x = PyV.str s) :=
  match x with
  | .str s => isTrue ⟨s, rfl⟩
  | .notStr => isFalse (by rintro ⟨s, h⟩; cases h)

instance : DecidablePred abbrShapeOk := by
  intro a
  cases a with
  | noneA => exact isTrue trivial
  | strA s => exact isTrue trivial
  | listA xs =>
    simp only [abbrShapeOk]
    exact List.decidableBAll _ xs
  | otherA => exact isFalse (fun h => h)

/-- Spec-side shape for hotkeys, following the claim's words: `None`,
or a 2-tuple whose first element is a list each of whose elements is a
`str` or `model.Key` and whose second element is a `str` or
`model.Key` (keys being `str` instances). -/
def hkShapeOk : HotkeyArg → Prop
  | .noneH => True
  | .tupleH es =>
    match es with
    | [e0, e1] =>
      (∃ items, e0 = HKEl.listE items ∧ ∀ i ∈ items, ∃ s, i = PyV.str s) ∧
        ∃ s, e1 = HKEl.strE s
    | _ => False
  | .otherH => False

instance (e : HKEl) : Decidable (∃ s, e = HKEl.strE s) :=
  match e with
  | .strE s => isTrue ⟨s, rfl⟩
  | .listE xs => isFalse (by rintro ⟨s, h⟩; cases h)
  | .otherE => isFalse (by rintro ⟨s, h⟩; cases h)

instance (e : HKEl) : Decidable (∃ items, e = HKEl.listE items ∧ ∀ i ∈ items, ∃ s, i = PyV.str s) :=
  match e with
  | .strE s => isFalse (by rintro ⟨i, h, _⟩; cases h)
  | .listE xs =>
    decidable_of_iff (∀ i ∈ xs, ∃ s, i = PyV.str s)
      ⟨fun h => ⟨xs, rfl, h⟩, fun ⟨i, h, hi⟩ => by cases h; exact hi⟩
  | .otherE => isFalse (by rintro ⟨i, h, _⟩; cases h)

instance : DecidablePred hkShapeOk := by
  intro a
  cases a with
  | noneH => exact isTrue trivial
  | tupleH es =>
    match es with
    | [] => exact isFalse (fun h => h)
    | [_] => exact isFalse (fun h => h)
    | [e0, e1] =>
      simp only [hkShapeOk]
      infer_instance
    | _ :: _ :: _ :: _ => exact isFalse (fun h => h)
  | otherH => exact isFalse (fun h => h)

/-! ## The object model

Modelled from the spec: `model.Phrase`, `model.Script` and
`model.Folder` are not part of the excerpt (only their callers are).
They are embedded as records holding exactly the attributes the
excerpted code reads or writes.  Mutation of folder objects (which are
aliased in Python) goes through an id-indexed heap in `EngineState`. -/

/-- Modelled from the spec: a `model.Phrase` with the attributes the
engine code touches.  `Phrase(name, contents)` initialises everything
else to its default. -/
structure Phrase where
  description : String
  contents : String
  modes : List TriggerMode
  abbreviations : List String
  hotkeyModifiers : List String
  hotkeyKey : Option String
  sendMode : SendMode
  windowTitleRegex : Option String
  filterRecursive : Bool
  show_in_tray_menu : Bool
  prompt : Bool
  temporary : Bool
deriving DecidableEq, Repr

/-- Modelled from the spec: the fresh phrase built by
`model.Phrase(name, contents)`. -/
def Phrase.new (name contents : String) : Phrase :=
  { description := name, contents := contents, modes := [],
    abbreviations := [], hotkeyModifiers := [], hotkeyKey := none,
    sendMode := .KEYBOARD, windowTitleRegex := none,
    filterRecursive := false, show_in_tray_menu := false,
    prompt := false, temporary := false }

/-- Modelled from the spec: a `model.Script` as far as the excerpt
needs it — a description plus the trigger bindings the uniqueness scan
inspects. -/
structure Script where
  description : String
  abbreviations : List String
  hotkeyModifiers : List String
  hotkeyKey : Option String
deriving DecidableEq, Repr

/-- An entry of `configManager.allItems`: a phrase or a script. -/
inductive CMItem
  | phrase (p : Phrase)
  | script (s : Script)
deriving DecidableEq, Repr

/-- The description of an item (`item.description`). -/
def CMItem.description : CMItem → String
  | .phrase p => p.description
  | .script s => s.description

/-- The abbreviation list of an item. -/
def CMItem.abbreviations : CMItem → List String
  | .phrase p => p.abbreviations
  | .script s => s.abbreviations

/-- The hotkey modifier list of an item. -/
def CMItem.hotkeyModifiers : CMItem → List String
  | .phrase p => p.hotkeyModifiers
  | .script s => s.hotkeyModifiers

/-- The hotkey key of an item, if any. -/
def CMItem.hotkeyKey : CMItem → Option String
  | .phrase p => p.hotkeyKey
  | .script s => s.hotkeyKey

/-- Modelled from the spec: a `model.Folder` with the attributes the
engine code touches.  Subfolders are ids into the folder heap; items
are stored inline (the excerpt never mutates a phrase after creation). -/
structure Folder where
  title : String
  folders : List Nat
  items : List Phrase
  temporary : Bool
deriving DecidableEq, Repr

/-- A record of a `persist()` call: writing an entity as an individual
JSON document. -/
inductive PersistEvent
  | folderP (fid : Nat)
  | itemP (p : Phrase)
deriving DecidableEq, Repr

/-- The state an `Engine` instance acts on: the config manager's folder
tree (as an id-indexed heap plus the top-level `allFolders` list), its
`allItems` cache, and a log of `persist()` calls. -/
structure EngineState where
  folderHeap : List (Nat × Folder)
  allFolders : List Nat
  allItems : List CMItem
  persistLog : List PersistEvent
  nextFolderId : Nat
deriving DecidableEq, Repr

/-- Look up a folder object by id. -/
def EngineState.getFolder (st : EngineState) (fid : Nat) : Option Folder :=
  (st.folderHeap.find? (fun e => e.1 == fid)).map (fun e => e.2)

/-- Look up a folder object by id, with an inert default (used only
where the source is guaranteed a real folder object). -/
def EngineState.getFolderD (st : EngineState) (fid : Nat) : Folder :=
  (st.getFolder fid).getD { title := "", folders := [], items := [], temporary := false }

/-- Overwrite the folder object stored at an id (Python mutation of an
aliased folder object). -/
def EngineState.setFolder (st : EngineState) (fid : Nat) (f : Folder) : EngineState :=
  { st with folderHeap := st.folderHeap.map (fun e => if e.1 == fid then (fid, f) else e) }

/-- Modelled from the spec: the config manager's
`check_abbreviation_unique` — a linear scan over the existing items,
returning `true` iff no existing item carries the abbreviation. -/
def check_abbreviation_unique (st : EngineState) (abbr : String) : Bool :=
  !(st.allItems.any (fun it => it.abbreviations.contains abbr))

/-- Modelled from the spec: the config manager's `check_hotkey_unique`
— a linear scan over the existing items, returning `true` iff no
existing item carries exactly this modifier list and key. -/
def check_hotkey_unique (st : EngineState) (modifiers : List String) (key : String) : Bool :=
  !(st.allItems.any (fun it => it.hotkeyModifiers == modifiers && it.hotkeyKey == some key))

/-- Python's `sorted()` on a list of strings (`model.Key` values sort
by their string value). -/
def pySorted (l : List String) : List String :=
  List.insertionSort (fun a b => a ≤ b) l

/-! ## Truthiness and extraction helpers for the dynamic arguments -/

/-- The string carried by an abbreviation-list element (only used after
validation, when every element is a string). -/
def pvStr : PyV → String
  | .str s => s
  | .notStr => ""

/-- The string carried by a hotkey tuple element (only used after
validation). -/
def hkElStr : HKEl → String
  | .strE s => s
  | _ => ""

/-- Python truthiness of the `abbreviations` argument
(`if abbreviations:`): `None`, `""` and `[]` are falsy. -/
def truthyAbbr : AbbrArg → Bool
  | .noneA => false
  | .strA s => !(s == "")
  | .listA xs => !xs.isEmpty
  | .otherA => true

/-- The abbreviation list after the `str`-to-one-element-list
conversion in `create_phrase` (engine.py lines 197-198). -/
def abbrStrings : AbbrArg → List String
  | .strA s => [s]
  | .listA xs => xs.map pvStr
  | _ => []

/-- Python truthiness of the `hotkey` argument (`if hotkey:`): `None`
and the empty tuple are falsy. -/
def truthyHK : HotkeyArg → Bool
  | .noneH => false
  | .tupleH es => !es.isEmpty
  | .otherH => true

/-- The modifier strings of a hotkey argument (`hotkey[0]`, a list). -/
def hkMods : HotkeyArg → List String
  | .tupleH (HKEl.listE items :: _) => items.map pvStr
  | _ => []

/-- The key of a hotkey argument (`hotkey[1]`). -/
def hkKey : HotkeyArg → String
  | .tupleH [_, e1] => hkElStr e1
  | _ => ""

/-! ## Error messages (abridged from the raise sites; kept pairwise
distinct so raise sites stay distinguishable) -/

def msgFolderType : String := "Expected folder to be folder"
def msgAbbrShape : String := "Expected abbreviations to be str or list of str"
def msgHotkeyShape : String := "Expected hotkey to be a tuple of modifiers then keys, as lists of model.Key or str"
def msgDupAbbr : String := "The specified abbreviation is already in use."
def msgDupHotkey : String := "The specified hotkey and modifier combination is already in use."
def msgTempPhrase : String := "Phrases created within temporary folders must themselves be explicitly set temporary"
def msgTempFolder : String := "Folders created within temporary folders must themselves be set temporary"
def msgDupAbbrExn : String := "The specified abbreviation is already in use"
def msgDupHotkeyExn : String := "The specified hotkey and modifier combination is already in use"
def msgNoScript : String := "No script with description found"

/-! ## The engine functions (engine.py) -/

/-- `Engine.get_folder` (lines 41-53): the first folder in
`allFolders` whose title matches, if any. -/
def get_folder (st : EngineState) (title : String) : Option Nat :=
  st.allFolders.find? (fun fid => (st.getFolderD fid).title == title)

/-- `Engine.create_folder` (lines 55-99).  A dangling folder id plays
the role of a non-`model.Folder` argument in `validateType`.  The
source order is kept: scan for an existing title (returning it
unchanged), else create, attach to the parent, raise if a
non-temporary folder is being placed in a temporary parent (note: the
attachment has already happened), then persist or mark temporary. -/
def create_folder (st : EngineState) (title : String) (parent : Option Nat)
    (temporary : Bool) : EngineState × Except AKError Nat :=
  match parent with
  | some pid =>
    match st.getFolder pid with
    | none => (st, .error (.valueError msgFolderType))
    | some pf =>
      match pf.folders.find? (fun fid => (st.getFolderD fid).title == title) with
      | some fid => (st, .ok fid)
      | none =>
        let nid := st.nextFolderId
        let newF : Folder := { title := title, folders := [], items := [], temporary := false }
        let st1 : EngineState :=
          { st with folderHeap := st.folderHeap ++ [(nid, newF)], nextFolderId := nid + 1 }
        let st2 := st1.setFolder pid { pf with folders := pf.folders ++ [nid] }
        if !temporary && pf.temporary then
          (st2, .error (.valueError msgTempFolder))
        else if !temporary then
          ({ st2 with persistLog := st2.persistLog ++ [.folderP nid] }, .ok nid)
        else
          (st2.setFolder nid { newF with temporary := true }, .ok nid)
  | none =>
    match st.allFolders.find? (fun fid => (st.getFolderD fid).title == title) with
    | some fid => (st, .ok fid)
    | none =>
      let nid := st.nextFolderId
      let newF : Folder := { title := title, folders := [], items := [], temporary := false }
      let st1 : EngineState :=
        { st with folderHeap := st.folderHeap ++ [(nid, newF)],
                  allFolders := st.allFolders ++ [nid], nextFolderId := nid + 1 }
      if !temporary then
        ({ st1 with persistLog := st1.persistLog ++ [.folderP nid] }, .ok nid)
      else
        (st1.setFolder nid { newF with temporary := true }, .ok nid)

/-- The phrase object built inside `create_phrase`'s `try` block
(engine.py lines 217-228): construct, set the send mode when one was
given, attach abbreviations, hotkey and window filter when truthy, and
set the remaining flags. -/
def builtPhrase (name contents : String) (abbreviations : AbbrArg) (hotkey : HotkeyArg)
    (send_mode : Option SendMode) (window_filter : Option String)
    (show_in_system_tray always_prompt temporary : Bool) : Phrase :=
  let p0 := Phrase.new name contents
  let p1 := match send_mode with
    | some m => { p0 with sendMode := m }
    | none => p0
  let p2 := if truthyAbbr abbreviations then
      { p1 with abbreviations := p1.abbreviations ++ abbrStrings abbreviations,
                modes := p1.modes ++ [TriggerMode.ABBREVIATION] }
    else p1
  let p3 := if truthyHK hotkey then
      { p2 with hotkeyModifiers := hkMods hotkey, hotkeyKey := some (hkKey hotkey),
                modes := p2.modes ++ [TriggerMode.HOTKEY] }
    else p2
  let p4 := match window_filter with
    | some w => if w == "" then p3 else { p3 with windowTitleRegex := some w }
    | none => p3
  { p4 with show_in_tray_menu := show_in_system_tray,
            prompt := always_prompt, temporary := temporary }

/-- `folder.add_item(p)` followed by the `config_altered` cache
rebuild: append the phrase to the folder's items and to `allItems`. -/
def addPhrase (st : EngineState) (folder : Nat) (fd : Folder) (p : Phrase) : EngineState :=
  { st.setFolder folder { fd with items := fd.items ++ [p] } with
      allItems := st.allItems ++ [CMItem.phrase p] }

/-- `Engine.create_phrase` (lines 102-238).  Typed parameters make the
`validateType` calls vacuous except for the folder argument, where a
dangling id plays the role of a non-folder value.  `set_window_titles`
on the fresh phrase is modelled as storing the filter string (its
regex validation lives in the save path, `Autokey.save`).
`config_altered` in the `finally` block rebuilds the item cache, which
the model reflects by appending the new phrase to `allItems`. -/
def create_phrase (st : EngineState) (folder : Nat) (name contents : String)
    (abbreviations : AbbrArg) (hotkey : HotkeyArg) (send_mode : Option SendMode)
    (window_filter : Option String) (show_in_system_tray : Bool)
    (always_prompt : Bool) (temporary : Bool) : EngineState × Except AKError Phrase :=
  match st.getFolder folder with
  | none => (st, .error (.valueError msgFolderType))
  | some fd =>
    if !(validateAbbreviations abbreviations) then
      (st, .error (.valueError msgAbbrShape))
    else if !(validateHotkey hotkey) then
      (st, .error (.valueError msgHotkeyShape))
    else if (truthyAbbr abbreviations &&
        ((abbrStrings abbreviations).any (fun a => !(check_abbreviation_unique st a)))) then
      (st, .error (.valueError msgDupAbbr))
    else if (truthyHK hotkey &&
        !(check_hotkey_unique st (pySorted (hkMods hotkey)) (hkKey hotkey))) then
      (st, .error (.valueError msgDupHotkey))
    else if fd.temporary && !temporary then
      (st, .error (.valueError msgTempPhrase))
    else
      let p := builtPhrase name contents abbreviations hotkey send_mode window_filter
        show_in_system_tray always_prompt temporary
      let st2 := addPhrase st folder fd p
      if !temporary then
        ({ st2 with persistLog := st2.persistLog ++ [PersistEvent.itemP p] }, .ok p)
      else
        (st2, .ok p)

@[simp] lemma addPhrase_persistLog (st : EngineState) (folder : Nat) (fd : Folder) (p : Phrase) :
    (addPhrase st folder fd p).persistLog = st.persistLog := rfl

/-- `Engine.create_abbreviation` (lines 295-321, deprecated): checks
abbreviation uniqueness (raising a plain `Exception`), then builds the
phrase, adds it to the folder and always persists it. -/
def create_abbreviation (st : EngineState) (folder : Nat)
    (description abbr contents : String) : EngineState × Except AKError Phrase :=
  if !(check_abbreviation_unique st abbr) then
    (st, .error (.exn msgDupAbbrExn))
  else
    match st.getFolder folder with
    | none => (st, .error (.valueError msgFolderType))
    | some fd =>
      let p := { Phrase.new description contents with
                   modes := [TriggerMode.ABBREVIATION], abbreviations := [abbr] }
      let st1 := st.setFolder folder { fd with items := fd.items ++ [p] }
      let st2 := { st1 with allItems := st1.allItems ++ [CMItem.phrase p] }
      ({ st2 with persistLog := st2.persistLog ++ [PersistEvent.itemP p] }, .ok p)

/-- `Engine.create_hotkey` (lines 323-362, deprecated): sorts the
modifier list in place, checks hotkey uniqueness (raising a plain
`Exception`), then builds the phrase with the sorted modifiers, adds
it to the folder and always persists it. -/
def create_hotkey (st : EngineState) (folder : Nat) (description : String)
    (modifiers : List String) (key contents : String) : EngineState × Except AKError Phrase :=
  let mods := pySorted modifiers
  if !(check_hotkey_unique st mods key) then
    (st, .error (.exn msgDupHotkeyExn))
  else
    match st.getFolder folder with
    | none => (st, .error (.valueError msgFolderType))
    | some fd =>
      let p := { Phrase.new description contents with
                   modes := [TriggerMode.HOTKEY],
                   hotkeyModifiers := mods, hotkeyKey := some key }
      let st1 := st.setFolder folder { fd with items := fd.items ++ [p] }
      let st2 := { st1 with allItems := st1.allItems ++ [CMItem.phrase p] }
      ({ st2 with persistLog := st2.persistLog ++ [PersistEvent.itemP p] }, .ok p)

/-- Does this item match `run_script`'s loop condition
(`item.description == description and isinstance(item, model.Script)`)? -/
def isMatchingScript (description : String) : CMItem → Bool
  | .script s => s.description == description
  | .phrase _ => false

/-- `Engine.run_script` (lines 364-381): a loop over `allItems` that
keeps overwriting `target_script` with each matching script, so the
last match wins; the returned script is the one passed to
`runner.run_subscript` (exactly one call), and a plain `Exception` is
raised when no script matches. -/
def run_script (st : EngineState) (description : String) : Except AKError Script :=
  let target := st.allItems.foldl (fun acc item =>
    match item with
    | .script s => if s.description == description then some s else acc
    | .phrase _ => acc) none
  match target with
  | some s => .ok s
  | none => .error (.exn msgNoScript)

/-! ## Window-filter save path (baseUIActions.py, UI_common_functions.py) -/

/-- The part of the window-filter dialog the save functions read:
`get_filter_text()` and `get_is_recursive()`. -/
structure FilterDialog where
  filterText : String
  isRecursive : Bool
deriving DecidableEq, Repr

/-- Modelled from the spec: `item.set_window_titles(regex)` compiles
the string as a regular expression and raises `re.error` when it is
invalid, otherwise stores it as the window-title filter.  Regex
validity itself is host-library behaviour, so it is a parameter. -/
def set_window_titles (validRegex : String → Bool) (p : Phrase) (regex : String) :
    Except Unit Phrase :=
  if validRegex regex then .ok { p with windowTitleRegex := some regex }
  else .error ()

/-- `baseUIActions.save` (lines 20-29): try to store the dialog's
filter text on the item, discarding it on `re.error`, then always
update the recursive flag from the dialog. -/
def save (validRegex : String → Bool) (windowFilterDialog : FilterDialog)
    (item : Phrase) : Phrase :=
  let item1 := match set_window_titles validRegex item windowFilterDialog.filterText with
    | .ok p => p
    | .error _ => item
  { item1 with filterRecursive := windowFilterDialog.isRecursive }

/-- `UI_common_functions.save_item_filter` (lines 102-110): identical
behaviour to `baseUIActions.save` with the app object in place of the
dialog. -/
def save_item_filter (validRegex : String → Bool) (app : FilterDialog)
    (item : Phrase) : Phrase :=
  let item1 := match set_window_titles validRegex item app.filterText with
    | .ok p => p
    | .error _ => item
  { item1 with filterRecursive := app.isRecursive }

/-! ## Config backup recovery (configmanager, exercised by
tests/test_configmanager.py) -/

/-- The two file paths the backup logic touches: the JSON configuration
file and its sibling backup path, each present or absent with some
contents. -/
structure ConfigFS where
  config : Option String
  backup : Option String
deriving DecidableEq, Repr

/-- Modelled from the spec: `_restore_backup_config` copies the
last-known-good backup file over the configuration path. -/
def restore_backup_config (fs : ConfigFS) : ConfigFS :=
  { fs with config := fs.backup }

/-- Modelled from the spec: `_recover_config_backup` — on a load
failure, if the sibling backup file exists the configuration is
recovered by copying it over the configuration path; otherwise the
original load error is raised. -/
def recover_config_backup (fs : ConfigFS) (err : String) : Except String ConfigFS :=
  match fs.backup with
  | some _ => .ok (restore_backup_config fs)
  | none => .error err

instance {ε α : Type} [DecidableEq ε] [DecidableEq α] : DecidableEq (Except ε α) := by
  intro a b
  cases a with
  | error e =>
    cases b with
    | error f =>
      exact match decEq e f with
        | isTrue h => isTrue (h ▸ rfl)
        | isFalse h => isFalse (fun hc => h (by cases hc; rfl))
    | ok y => exact isFalse (fun hc => by cases hc)
  | ok x =>
    cases b with
    | error f => exact isFalse (fun hc => by cases hc)
    | ok y =>
      exact match decEq x y with
        | isTrue h => isTrue (h ▸ rfl)
        | isFalse h => isFalse (fun hc => h (by cases hc; rfl))

/-- A small concrete state for witnesses: empty config. -/
def st0 : EngineState :=
  { folderHeap := [], allFolders := [], allItems := [], persistLog := [], nextFolderId := 0 }

/-! ## Helper lemmas -/

lemma isValidHotkeyItem_iff (x : PyV) : isValidHotkeyItem x = true ↔ ∃ s, x = PyV.str s := by
  cases x <;> simp [isValidHotkeyItem]

lemma isValidHotkeyType_iff (e : HKEl) : isValidHotkeyType e = true ↔ ∃ s, e = HKEl.strE s := by
  cases e <;> simp [isValidHotkeyType]

lemma validateAbbreviations_iff (a : AbbrArg) :
    validateAbbreviations a = true ↔ abbrShapeOk a := by
  cases a with
  | noneA => simp [validateAbbreviations, abbrShapeOk]
  | strA s => simp [validateAbbreviations, abbrShapeOk]
  | listA xs =>
    simp only [validateAbbreviations, abbrShapeOk, List.all_eq_true]
    constructor
    · intro h x hx
      have hx2 := h x hx
      cases x with
      | str s => exact ⟨s, rfl⟩
      | notStr => simp at hx2
    · intro h x hx
      obtain ⟨s, hs⟩ := h x hx
      subst hs
      rfl
  | otherA => simp [validateAbbreviations, abbrShapeOk]

lemma validateHotkey_iff (hk : HotkeyArg) : validateHotkey hk = true ↔ hkShapeOk hk := by
  cases hk with
  | noneH => simp [validateHotkey, hkShapeOk]
  | otherH => simp [validateHotkey, hkShapeOk]
  | tupleH es =>
    match es with
    | [] => simp [validateHotkey, hkShapeOk]
    | [_] => simp [validateHotkey, hkShapeOk]
    | [e0, e1] =>
      simp only [validateHotkey, hkShapeOk, Bool.and_eq_true]
      constructor
      · rintro ⟨h0, h1⟩
        refine ⟨?_, (isValidHotkeyType_iff e1).mp h1⟩
        cases e0 with
        | strE s => simp at h0
        | listE items =>
          refine ⟨items, rfl, ?_⟩
          intro i hi
          exact (isValidHotkeyItem_iff i).mp ((List.all_eq_true.mp h0) i hi)
        | otherE => simp at h0
      · rintro ⟨⟨items, h0, hitems⟩, hs⟩
        subst h0
        refine ⟨List.all_eq_true.mpr ?_, (isValidHotkeyType_iff e1).mpr hs⟩
        intro i hi
        exact (isValidHotkeyItem_iff i).mpr (hitems i hi)
    | _ :: _ :: _ :: _ => simp [validateHotkey, hkShapeOk]

lemma pySorted_perm_eq {l1 l2 : List String} (h : l1.Perm l2) :
    pySorted l1 = pySorted l2 := by
  have hs1 := List.sorted_insertionSort (fun a b : String => a ≤ b) l1
  have hs2 := List.sorted_insertionSort (fun a b : String => a ≤ b) l2
  have hp : (List.insertionSort (fun a b : String => a ≤ b) l1).Perm
      (List.insertionSort (fun a b => a ≤ b) l2) :=
    ((List.perm_insertionSort _ l1).trans h).trans (List.perm_insertionSort _ l2).symm
  exact List.eq_of_perm_of_sorted hp hs1 hs2

lemma perm_all_eq {α : Type} {l1 l2 : List α} (p : α → Bool) (h : l1.Perm l2) :
    l1.all p = l2.all p := by
  cases h1 : l1.all p <;> cases h2 : l2.all p <;> try rfl
  · simp only [List.all_eq_true] at h2
    simp only [List.all_eq_false] at h1
    obtain ⟨x, hx, hpx⟩ := h1
    exact absurd (h2 x (h.mem_iff.mp hx)) (by simp [hpx])
  · simp only [List.all_eq_true] at h1
    simp only [List.all_eq_false] at h2
    obtain ⟨x, hx, hpx⟩ := h2
    exact absurd (h1 x (h.mem_iff.mpr hx)) (by simp [hpx])

/-! ## Claims -/

/-- C2: a call to `Engine.create_phrase` whose `abbreviations` argument
is neither `None`, a `str`, nor a list of all-`str` elements raises
`ValueError`; conversely exactly those shapes pass
`validateAbbreviations`, and a single string is treated as a
one-element abbreviation list. -/
theorem create_phrase_abbreviation_shape :
    (∀ a : AbbrArg, validateAbbreviations a = true ↔ abbrShapeOk a) ∧
    (∀ (st : EngineState) (folder : Nat) (name contents : String) (a : AbbrArg)
        (hk : HotkeyArg) (sm : Option SendMode) (wf : Option String)
        (tray pr tmp : Bool), ¬ abbrShapeOk a →
      ∃ msg, create_phrase st folder name contents a hk sm wf tray pr tmp =
        (st, .error (.valueError msg))) ∧
    (∀ s, abbrStrings (AbbrArg.strA s) = [s]) := by
  refine ⟨validateAbbreviations_iff, ?_, fun s => rfl⟩
  intro st folder name contents a hk sm wf tray pr tmp hbad
  have hva : validateAbbreviations a = false := by
    cases hv : validateAbbreviations a with
    | false => rfl
    | true => exact absurd ((validateAbbreviations_iff a).mp hv) hbad
  cases hf : st.getFolder folder with
  | none => exact ⟨msgFolderType, by simp [create_phrase, hf]⟩
  | some fd => exact ⟨msgAbbrShape, by simp [create_phrase, hf, hva]⟩

/-- Witness for C2 at a concrete bad argument (`abbreviations` a list
containing a non-string). -/
theorem create_phrase_abbreviation_shape_witness :
    ¬ abbrShapeOk (AbbrArg.listA [PyV.str "ab", PyV.notStr]) ∧
    ∃ msg, create_phrase st0 0 "n" "c" (AbbrArg.listA [PyV.str "ab", PyV.notStr])
        HotkeyArg.noneH none none false false false =
      (st0, .error (.valueError msg)) :=
  ⟨by decide,
   create_phrase_abbreviation_shape.2.1 st0 0 "n" "c" _ HotkeyArg.noneH none none
     false false false (by decide)⟩

/-- C3: a call to `Engine.create_phrase` raises `ValueError` unless the
`hotkey` argument is `None` or a 2-tuple whose first element is a list
of strings/keys and whose second element is a string/key; exactly those
shapes pass `validateHotkey`, and a 2-tuple whose first element is a
single (non-list) key or string is rejected. -/
theorem create_phrase_hotkey_shape :
    (∀ hk : HotkeyArg, validateHotkey hk = true ↔ hkShapeOk hk) ∧
    (∀ (st : EngineState) (folder : Nat) (name contents : String) (a : AbbrArg)
        (hk : HotkeyArg) (sm : Option SendMode) (wf : Option String)
        (tray pr tmp : Bool), ¬ hkShapeOk hk →
      ∃ msg, create_phrase st folder name contents a hk sm wf tray pr tmp =
        (st, .error (.valueError msg))) ∧
    (∀ (s : String) (e1 : HKEl), validateHotkey (HotkeyArg.tupleH [HKEl.strE s, e1]) = false) := by
  refine ⟨validateHotkey_iff, ?_, fun s e1 => by simp [validateHotkey]⟩
  intro st folder name contents a hk sm wf tray pr tmp hbad
  have hvh : validateHotkey hk = false := by
    cases hv : validateHotkey hk with
    | false => rfl
    | true => exact absurd ((validateHotkey_iff hk).mp hv) hbad
  cases hf : st.getFolder folder with
  | none => exact ⟨msgFolderType, by simp [create_phrase, hf]⟩
  | some fd =>
    cases hva : validateAbbreviations a with
    | false => exact ⟨msgAbbrShape, by simp [create_phrase, hf, hva]⟩
    | true => exact ⟨msgHotkeyShape, by simp [create_phrase, hf, hva, hvh]⟩

/-- Witness for C3 at a concrete bad argument (a 2-tuple whose first
element is a single string rather than a list). -/
theorem create_phrase_hotkey_shape_witness :
    ¬ hkShapeOk (HotkeyArg.tupleH [HKEl.strE "<ctrl>", HKEl.strE "a"]) ∧
    ∃ msg, create_phrase st0 0 "n" "c" AbbrArg.noneA
        (HotkeyArg.tupleH [HKEl.strE "<ctrl>", HKEl.strE "a"]) none none false false false =
      (st0, .error (.valueError msg)) :=
  ⟨by decide,
   create_phrase_hotkey_shape.2.1 st0 0 "n" "c" AbbrArg.noneA _ none none
     false false false (by decide)⟩

/-- C4: when loading the JSON configuration fails, the configuration is
recovered by copying the sibling backup file over the configuration
path; when no backup file exists, the original load error is raised. -/
theorem recover_config_backup_spec :
    ∀ (fs : ConfigFS) (err : String),
      (∀ b, fs.backup = some b →
        recover_config_backup fs err = .ok (restore_backup_config fs) ∧
        (restore_backup_config fs).config = some b) ∧
      (fs.backup = none → recover_config_backup fs err = .error err) := by
  intro fs err
  constructor
  · intro b hb
    exact ⟨by simp [recover_config_backup, hb], by simp [restore_backup_config, hb]⟩
  · intro hb
    simp [recover_config_backup, hb]

/-- Witness for C4: both the recovery case and the no-backup case at
concrete file states. -/
theorem recover_config_backup_spec_witness :
    (recover_config_backup { config := none, backup := some "cfg" } "boom" =
        .ok (restore_backup_config { config := none, backup := some "cfg" }) ∧
      (restore_backup_config { config := none, backup := some "cfg" }).config = some "cfg") ∧
    recover_config_backup { config := none, backup := none } "boom" = .error "boom" :=
  ⟨(recover_config_backup_spec { config := none, backup := some "cfg" } "boom").1 "cfg" rfl,
   (recover_config_backup_spec { config := none, backup := none } "boom").2 rfl⟩

/-- C6: in both window-filter save functions, an invalid filter regex
is discarded (the window-title filter is unchanged) while the
recursive-filter flag is always updated from the dialog. -/
theorem window_filter_save_spec :
    ∀ (validRegex : String → Bool) (d : FilterDialog) (item : Phrase),
      (validRegex d.filterText = false →
        (save validRegex d item).windowTitleRegex = item.windowTitleRegex ∧
        (save_item_filter validRegex d item).windowTitleRegex = item.windowTitleRegex) ∧
      ((save validRegex d item).filterRecursive = d.isRecursive ∧
        (save_item_filter validRegex d item).filterRecursive = d.isRecursive) := by
  intro validRegex d item
  constructor
  · intro hbad
    constructor <;> simp [save, save_item_filter, set_window_titles, hbad]
  · cases hv : validRegex d.filterText <;>
      exact ⟨by simp [save, set_window_titles, hv], by simp [save_item_filter, set_window_titles, hv]⟩

/-- Witness for C6 with a rejecting regex validator and a concrete
item. -/
theorem window_filter_save_spec_witness :
    ((save (fun _ => false) { filterText := "(", isRecursive := true } (Phrase.new "a" "b")).windowTitleRegex =
        (Phrase.new "a" "b").windowTitleRegex ∧
      (save_item_filter (fun _ => false) { filterText := "(", isRecursive := true } (Phrase.new "a" "b")).windowTitleRegex =
        (Phrase.new "a" "b").windowTitleRegex) ∧
    ((save (fun _ => false) { filterText := "(", isRecursive := true } (Phrase.new "a" "b")).filterRecursive = true ∧
      (save_item_filter (fun _ => false) { filterText := "(", isRecursive := true } (Phrase.new "a" "b")).filterRecursive = true) :=
  ⟨(window_filter_save_spec (fun _ => false) { filterText := "(", isRecursive := true } (Phrase.new "a" "b")).1 rfl,
   (window_filter_save_spec (fun _ => false) { filterText := "(", isRecursive := true } (Phrase.new "a" "b")).2⟩

/-- C8: `Engine.create_folder` is idempotent with respect to existing
titles — when a folder with the given title already exists among the
parent's folders (or the top-level folders when no parent is given),
the first such folder is returned and the state is unchanged: nothing
is appended, nothing is persisted, and the existing folder's
`temporary` flag is untouched. -/
theorem create_folder_idempotent :
    (∀ (st : EngineState) (title : String) (temporary : Bool) (fid : Nat),
      st.allFolders.find? (fun f => (st.getFolderD f).title == title) = some fid →
      create_folder st title none temporary = (st, .ok fid)) ∧
    (∀ (st : EngineState) (title : String) (temporary : Bool) (pid : Nat)
        (pf : Folder) (fid : Nat),
      st.getFolder pid = some pf →
      pf.folders.find? (fun f => (st.getFolderD f).title == title) = some fid →
      create_folder st title (some pid) temporary = (st, .ok fid)) := by
  constructor
  · intro st title temporary fid hfind
    simp [create_folder, hfind]
  · intro st title temporary pid pf fid hget hfind
    simp [create_folder, hget, hfind]

/-- A concrete state for the C8 witness: folder 1 (titled "t") sits both
at top level and inside folder 2. -/
def st8 : EngineState :=
  { folderHeap := [(1, { title := "t", folders := [], items := [], temporary := false }),
                   (2, { title := "p", folders := [1], items := [], temporary := false })],
    allFolders := [1, 2], allItems := [], persistLog := [], nextFolderId := 3 }

/-- Witness for C8: both the top-level and the subfolder case at a
concrete state. -/
theorem create_folder_idempotent_witness :
    create_folder st8 "t" none false = (st8, .ok 1) ∧
    create_folder st8 "t" (some 2) true = (st8, .ok 1) :=
  ⟨create_folder_idempotent.1 st8 "t" false 1 (by decide),
   create_folder_idempotent.2 st8 "t" true 2
     { title := "p", folders := [1], items := [], temporary := false } 1 (by decide) (by decide)⟩

/-- C9: `Engine.create_phrase` with `temporary=False` on a temporary
folder always raises `ValueError` with the state unchanged — no
mutation happens on any of its error paths, the temporary-folder guard
included. -/
theorem create_phrase_temporary_folder_guard :
    ∀ (st : EngineState) (folder : Nat) (fd : Folder) (name contents : String)
      (a : AbbrArg) (hk : HotkeyArg) (sm : Option SendMode) (wf : Option String)
      (tray pr : Bool),
      st.getFolder folder = some fd → fd.temporary = true →
      ∃ msg, create_phrase st folder name contents a hk sm wf tray pr false =
        (st, .error (.valueError msg)) := by
  intro st folder fd name contents a hk sm wf tray pr hf htemp
  cases hva : validateAbbreviations a with
  | false => exact ⟨msgAbbrShape, by simp [create_phrase, hf, hva]⟩
  | true =>
    cases hvh : validateHotkey hk with
    | false => exact ⟨msgHotkeyShape, by simp [create_phrase, hf, hva, hvh]⟩
    | true =>
      cases hda : (truthyAbbr a &&
          ((abbrStrings a).any (fun x => !(check_abbreviation_unique st x)))) with
      | true => exact ⟨msgDupAbbr, by simp [create_phrase, hf, hva, hvh, hda]⟩
      | false =>
        cases hdh : (truthyHK hk &&
            !(check_hotkey_unique st (pySorted (hkMods hk)) (hkKey hk))) with
        | true => exact ⟨msgDupHotkey, by simp [create_phrase, hf, hva, hvh, hda, hdh]⟩
        | false =>
          exact ⟨msgTempPhrase, by simp [create_phrase, hf, hva, hvh, hda, hdh, htemp]⟩

/-- A concrete state for the C9 witness: a single temporary folder. -/
def st9 : EngineState :=
  { folderHeap := [(0, { title := "tmp", folders := [], items := [], temporary := true })],
    allFolders := [0], allItems := [], persistLog := [], nextFolderId := 1 }

/-- Witness for C9 at a concrete temporary folder. -/
theorem create_phrase_temporary_folder_guard_witness :
    ∃ msg, create_phrase st9 0 "n" "c" AbbrArg.noneA HotkeyArg.noneH none none
        false false false = (st9, .error (.valueError msg)) :=
  create_phrase_temporary_folder_guard st9 0
    { title := "tmp", folders := [], items := [], temporary := true }
    "n" "c" AbbrArg.noneA HotkeyArg.noneH none none false false (by decide) rfl

/-- C5: every successful `create_phrase` call, and every successful
`create_folder` call that creates a new folder, persists the created
entity (appends a persist event) iff `temporary` is `False`. -/
theorem created_entities_persist_iff_not_temporary :
    (∀ (st : EngineState) (folder : Nat) (name contents : String) (a : AbbrArg)
        (hk : HotkeyArg) (sm : Option SendMode) (wf : Option String)
        (tray pr tmp : Bool) (st' : EngineState) (p : Phrase),
      create_phrase st folder name contents a hk sm wf tray pr tmp = (st', .ok p) →
      (tmp = false → st'.persistLog = st.persistLog ++ [PersistEvent.itemP p]) ∧
      (tmp = true → st'.persistLog = st.persistLog)) ∧
    (∀ (st : EngineState) (title : String) (tmp : Bool) (st' : EngineState) (fid : Nat),
      st.allFolders.find? (fun f => (st.getFolderD f).title == title) = none →
      create_folder st title none tmp = (st', .ok fid) →
      (tmp = false → st'.persistLog = st.persistLog ++ [PersistEvent.folderP fid]) ∧
      (tmp = true → st'.persistLog = st.persistLog)) ∧
    (∀ (st : EngineState) (title : String) (tmp : Bool) (pid : Nat) (pf : Folder)
        (st' : EngineState) (fid : Nat),
      st.getFolder pid = some pf →
      pf.folders.find? (fun f => (st.getFolderD f).title == title) = none →
      create_folder st title (some pid) tmp = (st', .ok fid) →
      (tmp = false → st'.persistLog = st.persistLog ++ [PersistEvent.folderP fid]) ∧
      (tmp = true → st'.persistLog = st.persistLog)) := by
  refine ⟨?_, ?_, ?_⟩
  · intro st folder name contents a hk sm wf tray pr tmp st' p h
    cases hf : st.getFolder folder with
    | none => simp [create_phrase, hf] at h
    | some fd =>
      cases tmp with
      | false =>
        refine ⟨fun _ => ?_, fun hcontra => by simp at hcontra⟩
        simp only [create_phrase, hf, Bool.not_false, if_true] at h
        split at h
        · simp at h
        · split at h
          · simp at h
          · split at h
            · simp at h
            · split at h
              · simp at h
              · split at h
                · simp at h
                · injection h with h1 h2
                  injection h2 with h2
                  subst h1
                  subst h2
                  simp [EngineState.setFolder]
      | true =>
        refine ⟨fun hcontra => by simp at hcontra, fun _ => ?_⟩
        simp only [create_phrase, hf, Bool.not_true, if_false] at h
        split at h
        · simp at h
        · split at h
          · simp at h
          · split at h
            · simp at h
            · split at h
              · simp at h
              · split at h
                · simp at h
                · injection h with h1 h2
                  subst h1
                  simp [EngineState.setFolder]
  · intro st title tmp st' fid hfind h
    simp only [create_folder, hfind] at h
    cases tmp with
    | false =>
      refine ⟨fun _ => ?_, fun hcontra => by simp at hcontra⟩
      simp only [Bool.not_false, if_true] at h
      injection h with h1 h2
      injection h2 with h2
      subst h1
      subst h2
      simp
    | true =>
      refine ⟨fun hcontra => by simp at hcontra, fun _ => ?_⟩
      simp only [Bool.not_true, if_false] at h
      injection h with h1 h2
      subst h1
      simp [EngineState.setFolder]
  · intro st title tmp pid pf st' fid hget hfind h
    simp only [create_folder, hget, hfind] at h
    cases tmp with
    | false =>
      refine ⟨fun _ => ?_, fun hcontra => by simp at hcontra⟩
      simp only [Bool.not_false, Bool.true_and, if_true] at h
      split at h
      · simp at h
      · injection h with h1 h2
        injection h2 with h2
        subst h1
        subst h2
        simp [EngineState.setFolder]
    | true =>
      refine ⟨fun hcontra => by simp at hcontra, fun _ => ?_⟩
      simp only [Bool.not_true, Bool.false_and, if_false] at h
      injection h with h1 h2
      subst h1
      simp [EngineState.setFolder]

/-- A concrete state for the C5 witness: a single empty folder. -/
def stW5 : EngineState :=
  { folderHeap := [(0, { title := "top", folders := [], items := [], temporary := false })],
    allFolders := [0], allItems := [], persistLog := [], nextFolderId := 1 }

/-- The phrase the C5 witness call creates. -/
def pW5 : Phrase := Phrase.new "n" "c"

/-- The state after the C5 witness `create_phrase` call. -/
def stW5done : EngineState :=
  { folderHeap := [(0, { title := "top", folders := [], items := [pW5], temporary := false })],
    allFolders := [0], allItems := [CMItem.phrase pW5],
    persistLog := [PersistEvent.itemP pW5], nextFolderId := 1 }

/-- The state after the C5 witness temporary `create_folder` call. -/
def stW5f : EngineState :=
  { folderHeap := [(0, { title := "top", folders := [], items := [], temporary := false }),
                   (1, { title := "g", folders := [], items := [], temporary := true })],
    allFolders := [0, 1], allItems := [], persistLog := [], nextFolderId := 2 }

/-- Witness for C5: a non-temporary phrase is persisted, a temporary
folder is not. -/
theorem created_entities_persist_iff_not_temporary_witness :
    (create_phrase stW5 0 "n" "c" AbbrArg.noneA HotkeyArg.noneH none none false false false =
      (stW5done, .ok pW5) ∧
      stW5done.persistLog = stW5.persistLog ++ [PersistEvent.itemP pW5]) ∧
    (create_folder stW5 "g" none true = (stW5f, .ok 1) ∧
      stW5f.persistLog = stW5.persistLog) :=
  ⟨⟨by decide,
    (created_entities_persist_iff_not_temporary.1 stW5 0 "n" "c" AbbrArg.noneA HotkeyArg.noneH
      none none false false false stW5done pW5 (by decide)).1 rfl⟩,
   ⟨by decide,
    (created_entities_persist_iff_not_temporary.2.1 stW5 "g" true stW5f 1
      (by decide) (by decide)).2 rfl⟩⟩

/-- C1: a duplicate abbreviation or hotkey binding (the config
manager's uniqueness scan fails) makes `create_phrase` raise
`ValueError`, and the deprecated `create_abbreviation` /
`create_hotkey` raise a plain `Exception`, in every case with the
state unchanged — no new phrase is added to the folder. -/
theorem duplicate_binding_rejected :
    (∀ (st : EngineState) (folder : Nat) (fd : Folder) (name contents : String)
        (a : AbbrArg) (hk : HotkeyArg) (sm : Option SendMode) (wf : Option String)
        (tray pr tmp : Bool),
      st.getFolder folder = some fd →
      validateAbbreviations a = true → validateHotkey hk = true →
      truthyAbbr a = true →
      (abbrStrings a).any (fun x => !(check_abbreviation_unique st x)) = true →
      create_phrase st folder name contents a hk sm wf tray pr tmp =
        (st, .error (.valueError msgDupAbbr))) ∧
    (∀ (st : EngineState) (folder : Nat) (fd : Folder) (name contents : String)
        (a : AbbrArg) (hk : HotkeyArg) (sm : Option SendMode) (wf : Option String)
        (tray pr tmp : Bool),
      st.getFolder folder = some fd →
      validateAbbreviations a = true → validateHotkey hk = true →
      (truthyAbbr a &&
        ((abbrStrings a).any (fun x => !(check_abbreviation_unique st x)))) = false →
      truthyHK hk = true →
      check_hotkey_unique st (pySorted (hkMods hk)) (hkKey hk) = false →
      create_phrase st folder name contents a hk sm wf tray pr tmp =
        (st, .error (.valueError msgDupHotkey))) ∧
    (∀ (st : EngineState) (folder : Nat) (description abbr contents : String),
      check_abbreviation_unique st abbr = false →
      create_abbreviation st folder description abbr contents =
        (st, .error (.exn msgDupAbbrExn))) ∧
    (∀ (st : EngineState) (folder : Nat) (description : String)
        (modifiers : List String) (key contents : String),
      check_hotkey_unique st (pySorted modifiers) key = false →
      create_hotkey st folder description modifiers key contents =
        (st, .error (.exn msgDupHotkeyExn))) := by
  refine ⟨?_, ?_, ?_, ?_⟩
  · intro st folder fd name contents a hk sm wf tray pr tmp hf hva hvh hta hany
    simp [create_phrase, hf, hva, hvh, hta, hany]
  · intro st folder fd name contents a hk sm wf tray pr tmp hf hva hvh habbrOk hth hcheck
    simp [create_phrase, hf, hva, hvh, habbrOk, hth, hcheck]
  · intro st folder description abbr contents hcheck
    simp [create_abbreviation, hcheck]
  · intro st folder description modifiers key contents hcheck
    simp [create_hotkey, hcheck]

/-- A concrete state for the C1 witness: one existing script already
owns the abbreviation "abc" and the hotkey `<ctrl>+a`. -/
def stDup : EngineState :=
  { folderHeap := [(0, { title := "top", folders := [], items := [], temporary := false })],
    allFolders := [0],
    allItems := [CMItem.script { description := "s", abbreviations := ["abc"],
                                 hotkeyModifiers := ["<ctrl>"], hotkeyKey := some "a" }],
    persistLog := [], nextFolderId := 1 }

/-- Witness for C1: all four duplicate-binding rejections at a concrete
state. -/
theorem duplicate_binding_rejected_witness :
    create_phrase stDup 0 "n" "c" (AbbrArg.strA "abc") HotkeyArg.noneH none none
        false false false = (stDup, .error (.valueError msgDupAbbr)) ∧
    create_phrase stDup 0 "n" "c" AbbrArg.noneA
        (HotkeyArg.tupleH [HKEl.listE [PyV.str "<ctrl>"], HKEl.strE "a"]) none none
        false false false = (stDup, .error (.valueError msgDupHotkey)) ∧
    create_abbreviation stDup 0 "d" "abc" "c" = (stDup, .error (.exn msgDupAbbrExn)) ∧
    create_hotkey stDup 0 "d" ["<ctrl>"] "a" "c" = (stDup, .error (.exn msgDupHotkeyExn)) :=
  ⟨duplicate_binding_rejected.1 stDup 0
      { title := "top", folders := [], items := [], temporary := false }
      "n" "c" (AbbrArg.strA "abc") HotkeyArg.noneH none none false false false
      (by decide) (by decide) (by decide) (by decide) (by decide),
   duplicate_binding_rejected.2.1 stDup 0
      { title := "top", folders := [], items := [], temporary := false }
      "n" "c" AbbrArg.noneA (HotkeyArg.tupleH [HKEl.listE [PyV.str "<ctrl>"], HKEl.strE "a"])
      none none false false false
      (by decide) (by decide) (by decide) (by decide) (by decide) (by decide),
   duplicate_binding_rejected.2.2.1 stDup 0 "d" "abc" "c" (by decide),
   duplicate_binding_rejected.2.2.2 stDup 0 "d" ["<ctrl>"] "a" "c" (by decide)⟩

/-- The value `run_script`'s loop would store for a single item: the
script itself when the item is a script with the right description. -/
def scriptMatch (description : String) : CMItem → Option Script
  | .script s => if s.description == description then some s else none
  | .phrase _ => none

lemma foldl_scriptTarget (description : String) (l : List CMItem) (acc : Option Script) :
    l.foldl (fun acc item =>
      match item with
      | .script s => if s.description == description then some s else acc
      | .phrase _ => acc) acc =
    (l.reverse.findSome? (scriptMatch description)).or acc := by
  induction l generalizing acc with
  | nil => simp
  | cons x t ih =>
    rw [List.foldl_cons, ih, List.reverse_cons, List.findSome?_append]
    cases hfind : List.findSome? (scriptMatch description) t.reverse with
    | some s => simp [Option.or]
    | none =>
      cases x with
      | phrase p => simp [List.findSome?, scriptMatch, Option.or]
      | script s =>
        by_cases hd : (s.description == description) = true <;>
          simp [List.findSome?, scriptMatch, Option.or, hd]

/-- C10: `Engine.run_script` raises an `Exception` iff no item of
`allItems` is a script with the given description; otherwise exactly
one subscript is run, namely the last matching script in the iteration
order of `allItems` (the first match of the reversed list). -/
theorem run_script_spec :
    ∀ (st : EngineState) (description : String),
      ((∃ e, run_script st description = .error e) ↔
        ¬ ∃ it ∈ st.allItems, ∃ sc, it = CMItem.script sc ∧ sc.description = description) ∧
      (∀ s, run_script st description = .ok s ↔
        st.allItems.reverse.findSome? (scriptMatch description) = some s) := by
  intro st description
  have hfold : run_script st description =
      match st.allItems.reverse.findSome? (scriptMatch description) with
      | some s => .ok s
      | none => .error (.exn msgNoScript) := by
    simp only [run_script, foldl_scriptTarget, Option.or_none]
  constructor
  · cases hfs : st.allItems.reverse.findSome? (scriptMatch description) with
    | some s =>
      rw [hfold, hfs]
      obtain ⟨it, hmem, hmatch⟩ := List.exists_of_findSome?_eq_some hfs
      have hmem2 : it ∈ st.allItems := List.mem_reverse.mp hmem
      have hscript : ∃ sc, it = CMItem.script sc ∧ sc.description = description := by
        cases it with
        | phrase p => simp [scriptMatch] at hmatch
        | script sc =>
          refine ⟨sc, rfl, ?_⟩
          by_cases hd : (sc.description == description) = true
          · exact eq_of_beq hd
          · simp [scriptMatch, hd] at hmatch
      constructor
      · rintro ⟨e, he⟩
        exact absurd he (by simp)
      · intro hno
        exact absurd ⟨it, hmem2, hscript⟩ hno
    | none =>
      rw [hfold, hfs]
      have hnone := List.findSome?_eq_none_iff.mp hfs
      constructor
      · rintro ⟨e, he⟩ ⟨it, hmem, sc, hit, hdesc⟩
        subst hit
        have hmm := hnone _ (List.mem_reverse.mpr hmem)
        simp [scriptMatch, hdesc] at hmm
      · intro hno
        exact ⟨.exn msgNoScript, rfl⟩
  · intro s
    rw [hfold]
    cases hfs : st.allItems.reverse.findSome? (scriptMatch description) with
    | some t => simp
    | none => simp

instance (it : CMItem) (d : String) :
    Decidable (∃ sc, it = CMItem.script sc ∧ sc.description = d) :=
  match it with
  | .phrase p => isFalse (by rintro ⟨sc, h, _⟩; cases h)
  | .script sc =>
    decidable_of_iff (sc.description = d)
      ⟨fun h => ⟨sc, rfl, h⟩, fun ⟨sc2, h, hd⟩ => by cases h; exact hd⟩

/-- A concrete state for the C10 witness: two scripts share the
description "dup". -/
def stScr : EngineState :=
  { folderHeap := [], allFolders := [],
    allItems := [CMItem.script { description := "dup", abbreviations := [],
                                 hotkeyModifiers := [], hotkeyKey := none },
                 CMItem.script { description := "dup", abbreviations := ["zz"],
                                 hotkeyModifiers := [], hotkeyKey := none }],
    persistLog := [], nextFolderId := 0 }

/-- Witness for C10: with two same-description scripts the later one is
run, and with no matching script an error is raised. -/
theorem run_script_spec_witness :
    run_script stScr "dup" =
      .ok { description := "dup", abbreviations := ["zz"],
            hotkeyModifiers := [], hotkeyKey := none } ∧
    ∃ e, run_script st0 "dup" = .error e :=
  ⟨((run_script_spec stScr "dup").2
      { description := "dup", abbreviations := ["zz"],
        hotkeyModifiers := [], hotkeyKey := none }).mpr (by decide),
   (run_script_spec st0 "dup").1.mpr (by decide)⟩

/-- C7: the duplicate-hotkey outcome is invariant under permutation of
the modifier list, both in `create_phrase` (which sorts the modifiers
before the uniqueness check) and in `create_hotkey` (which sorts the
list in place, making the whole call permutation-invariant). -/
theorem hotkey_uniqueness_perm_invariant :
    (∀ (st : EngineState) (folder : Nat) (name contents : String) (a : AbbrArg)
        (m1 m2 : List PyV) (k : HKEl) (sm : Option SendMode) (wf : Option String)
        (tray pr tmp : Bool), m1.Perm m2 →
      ((create_phrase st folder name contents a (HotkeyArg.tupleH [HKEl.listE m1, k])
          sm wf tray pr tmp).2 = .error (.valueError msgDupHotkey) ↔
        (create_phrase st folder name contents a (HotkeyArg.tupleH [HKEl.listE m2, k])
          sm wf tray pr tmp).2 = .error (.valueError msgDupHotkey))) ∧
    (∀ (st : EngineState) (folder : Nat) (description : String)
        (m1 m2 : List String) (key contents : String), m1.Perm m2 →
      create_hotkey st folder description m1 key contents =
        create_hotkey st folder description m2 key contents) := by
  constructor
  · intro st folder name contents a m1 m2 k sm wf tray pr tmp hperm
    have hv : validateHotkey (HotkeyArg.tupleH [HKEl.listE m2, k]) =
        validateHotkey (HotkeyArg.tupleH [HKEl.listE m1, k]) := by
      simp only [validateHotkey]
      rw [perm_all_eq isValidHotkeyItem hperm]
    have hmods : pySorted (hkMods (HotkeyArg.tupleH [HKEl.listE m2, k])) =
        pySorted (hkMods (HotkeyArg.tupleH [HKEl.listE m1, k])) := by
      simp only [hkMods]
      exact (pySorted_perm_eq (hperm.map pvStr)).symm
    cases hf : st.getFolder folder with
    | none => simp [create_phrase, hf]
    | some fd =>
      cases hva : validateAbbreviations a with
      | false => simp [create_phrase, hf, hva]
      | true =>
        cases hvh : validateHotkey (HotkeyArg.tupleH [HKEl.listE m1, k]) with
        | false =>
          have hvh2 : validateHotkey (HotkeyArg.tupleH [HKEl.listE m2, k]) = false :=
            hv.trans hvh
          simp [create_phrase, hf, hva, hvh, hvh2]
        | true =>
          have hvh2 : validateHotkey (HotkeyArg.tupleH [HKEl.listE m2, k]) = true :=
            hv.trans hvh
          cases hda : (truthyAbbr a &&
              ((abbrStrings a).any (fun x => !(check_abbreviation_unique st x)))) with
          | true => simp [create_phrase, hf, hva, hvh, hvh2, hda]
          | false =>
            cases hdh : (truthyHK (HotkeyArg.tupleH [HKEl.listE m1, k]) &&
                !(check_hotkey_unique st
                  (pySorted (hkMods (HotkeyArg.tupleH [HKEl.listE m1, k])))
                  (hkKey (HotkeyArg.tupleH [HKEl.listE m1, k])))) with
            | true =>
              have hdh2 : (truthyHK (HotkeyArg.tupleH [HKEl.listE m2, k]) &&
                  !(check_hotkey_unique st
                    (pySorted (hkMods (HotkeyArg.tupleH [HKEl.listE m2, k])))
                    (hkKey (HotkeyArg.tupleH [HKEl.listE m2, k])))) = true := by
                rw [hmods]
                exact hdh
              simp [create_phrase, hf, hva, hvh, hvh2, hda, hdh, hdh2]
            | false =>
              have hdh2 : (truthyHK (HotkeyArg.tupleH [HKEl.listE m2, k]) &&
                  !(check_hotkey_unique st
                    (pySorted (hkMods (HotkeyArg.tupleH [HKEl.listE m2, k])))
                    (hkKey (HotkeyArg.tupleH [HKEl.listE m2, k])))) = false := by
                rw [hmods]
                exact hdh
              cases tmp with
              | true => simp [create_phrase, hf, hva, hvh, hvh2, hda, hdh, hdh2]
              | false =>
                cases htemp : fd.temporary with
                | true => simp [create_phrase, hf, hva, hvh, hvh2, hda, hdh, hdh2, htemp]
                | false => simp [create_phrase, hf, hva, hvh, hvh2, hda, hdh, hdh2, htemp]
  · intro st folder description m1 m2 key contents hperm
    simp only [create_hotkey]
    rw [pySorted_perm_eq hperm]

/-- A concrete state for the C7 witness: an existing script owns the
hotkey `<alt>+<ctrl>+a` (modifiers stored sorted). -/
def stDup7 : EngineState :=
  { folderHeap := [(0, { title := "top", folders := [], items := [], temporary := false })],
    allFolders := [0],
    allItems := [CMItem.script { description := "s", abbreviations := [],
                                 hotkeyModifiers := ["<alt>", "<ctrl>"], hotkeyKey := some "a" }],
    persistLog := [], nextFolderId := 1 }

/-- Witness for C7 at two concrete modifier orderings. -/
theorem hotkey_uniqueness_perm_invariant_witness :
    ((create_phrase stDup7 0 "n" "c" AbbrArg.noneA
        (HotkeyArg.tupleH [HKEl.listE [PyV.str "<ctrl>", PyV.str "<alt>"], HKEl.strE "a"])
        none none false false false).2 = .error (.valueError msgDupHotkey) ↔
      (create_phrase stDup7 0 "n" "c" AbbrArg.noneA
        (HotkeyArg.tupleH [HKEl.listE [PyV.str "<alt>", PyV.str "<ctrl>"], HKEl.strE "a"])
        none none false false false).2 = .error (.valueError msgDupHotkey)) ∧
    create_hotkey stDup7 0 "d" ["<ctrl>", "<alt>"] "a" "c" =
      create_hotkey stDup7 0 "d" ["<alt>", "<ctrl>"] "a" "c" :=
  ⟨hotkey_uniqueness_perm_invariant.1 stDup7 0 "n" "c" AbbrArg.noneA
      [PyV.str "<ctrl>", PyV.str "<alt>"] [PyV.str "<alt>", PyV.str "<ctrl>"]
      (HKEl.strE "a") none none false false false
      (List.Perm.swap (PyV.str "<alt>") (PyV.str "<ctrl>") []),
   hotkey_uniqueness_perm_invariant.2 stDup7 0 "d" ["<ctrl>", "<alt>"] ["<alt>", "<ctrl>"]
      "a" "c" (List.Perm.swap "<alt>" "<ctrl>" [])⟩

end Autokey
